import Mathlib

/-!
Shallow embedding of the per-state time-series forecasting subsystem of the
eco_guardian_br repository (src/eco_guardian/models/time_series_model.py and
src/eco_guardian/models/train_time_series.py), together with proofs about the
claims of its specification.

Conventions of the embedding:
* Calendar timestamps are represented by their year (`Int`); the code stores
  `pd.Timestamp` values anchored at January 1st of each year (`freq='YS'`),
  so the year determines the timestamp.
* Exact rational numbers (`ℚ`) stand for the floating-point values of the
  code.  IEEE infinities and NaN are not representable in `ℚ`; the code paths
  that sanitize them (`replace([inf,-inf], nan).fillna(0)`) are noted where
  they occur.
* Raising an exception is modelled with `Except`; an in-place mutation of the
  forecaster object is modelled by returning the updated state.
-/

namespace EcoGuardian

/-- One raw input row of the frame handed to `UnifiedForecaster.preprocess_data`
(after the training driver's rename: column `ds` is the year, `y` the annual
conversion rate). -/
structure RawRow where
  ds : Int
  y : ℚ
  Estado : String
  bioma : String
  area_fazenda_ha : ℚ
  area_floresta_ha : ℚ
  deriving DecidableEq, Repr

/-- A pandas DataFrame of raw rows: the set of column labels (used by the
column-presence validations) together with the typed rows. -/
structure RawDF where
  cols : List String
  rows : List RawRow
  deriving DecidableEq, Repr

/-- State of the fitted `sklearn.preprocessing.LabelEncoder` stored in
`encoder_estados`: the ordered array `classes_`. -/
structure EncoderState where
  classes : List String
  deriving DecidableEq, Repr

/-- `LabelEncoder.transform` on a single label: the index of the label in
`classes_`; raises `ValueError` when the label was not seen at fit time. -/
def EncoderState.transform1 (e : EncoderState) (s : String) : Except String Nat :=
  if s ∈ e.classes then .ok (e.classes.indexOf s) else .error "unseen label"

/-- `LabelEncoder.fit`: `classes_` holds the sorted unique labels.  The
embedding keeps the deduplicated labels; the training driver fits on
`df['Estado'].unique()`. -/
def EncoderState.fit (names : List String) : EncoderState :=
  { classes := names.dedup }

/-- The four numeric covariates selected by `feature_columns`, in the order
`['area_fazenda_ha', 'area_floresta_ha', 'prop_floresta', 'estado_code']`. -/
structure Feat4 where
  area_fazenda_ha : ℚ
  area_floresta_ha : ℚ
  prop_floresta : ℚ
  estado_code : ℚ
  deriving DecidableEq, Repr

/-- A value standardized by the `StandardScaler`: sklearn computes
`(x - mean) / scale` in floating point, where `scale` is the square root of
the per-column variance (with zero variances replaced by 1).  Square roots
leave the rationals, so the embedding carries the exact pair
(centered value, column variance), which determines the scaled float: two
pairs that are equal denote equal scaled values. -/
structure Scaled where
  centered : ℚ
  variance : ℚ
  deriving DecidableEq, Repr

/-- The four covariates after standardization. -/
structure Scaled4 where
  area_fazenda_ha : Scaled
  area_floresta_ha : Scaled
  prop_floresta : Scaled
  estado_code : Scaled
  deriving DecidableEq, Repr

/-- Fitted parameters of the `StandardScaler` inside the `ColumnTransformer`:
per-column mean and (biased, ddof = 0) variance over the training matrix. -/
structure ScalerParams where
  mean : Feat4
  variance : Feat4
  deriving DecidableEq, Repr

/-- State of `self.preprocessor`, the `ColumnTransformer` wrapping one
`StandardScaler` over the four `feature_columns`: `none` before any fit,
`some p` once fitted. -/
structure PreprocessorState where
  params : Option ScalerParams
  deriving DecidableEq, Repr

/-- The Python guard `hasattr(self.preprocessor, 'mean_')` from
`preprocess_data`.  A `ColumnTransformer` object never defines an attribute
named `mean_` — fitted or not, that attribute lives on the inner
`StandardScaler` only — and `None` has no attributes either, so the guard is
`False` in every reachable state. -/
def hasattrMean (_ : Option PreprocessorState) : Bool := false

/-- State of the wrapped `prophet.Prophet` model: the registered extra
regressors and whether `fit` has completed (`self.history is not None`). -/
structure ProphetState where
  extra_regressors : List String
  fitted : Bool
  deriving DecidableEq, Repr

/-- Outcome of the underlying Stan/MCMC estimation run by `Prophet.fit`:
the numeric engine either converges or raises. -/
inductive EngineOutcome where
  | ok
  | fail (msg : String)
  deriving DecidableEq, Repr

/-- State of a `UnifiedForecaster` instance.  `model` and `preprocessor` are
`Option`s because `load_model` restores them with `artifacts.get(...)`, which
yields `None` when a key is absent; `__init__` populates both. -/
structure ForecasterState where
  feature_columns : List String
  geo_columns : List String
  preprocessor : Option PreprocessorState
  is_trained : Bool
  encoder_estados : Option EncoderState
  model : Option ProphetState
  deriving DecidableEq, Repr

/-- `UnifiedForecaster.__init__`: flat-growth Prophet with no regressors yet,
the four feature columns, an unfitted preprocessor, no encoder, untrained. -/
def initForecaster : ForecasterState :=
  { feature_columns :=
      ["area_fazenda_ha", "area_floresta_ha", "prop_floresta", "estado_code"]
    geo_columns := ["Estado", "bioma"]
    preprocessor := some { params := none }
    is_trained := false
    encoder_estados := none
    model := some { extra_regressors := [], fitted := false } }

/-- Errors raised inside `preprocess_data`. -/
inductive PreprocessError where
  /-- `ValueError`: column `y` absent from the input frame. -/
  | missingY
  /-- `ValueError`: required columns absent from the input frame. -/
  | missingColumns (missing : List String)
  /-- `AssertionError`: some aggregated row has total area `<= 0`. -/
  | invalidArea
  /-- `RuntimeError`: `encoder_estados` is `None`. -/
  | encoderNotConfigured
  /-- `ValueError`: some states of the frame are unknown to the encoder. -/
  | unknownEstados (missing : List String)
  /-- `RuntimeError('Falha no escalonamento: ...')`: the scaling step threw
  (e.g. fit on an empty matrix, or `None.fit_transform`). -/
  | scalingFailed
  deriving DecidableEq, Repr

/-- One row of the aggregated frame `df_grouped` built in step 3 of
`preprocess_data` (before proportion/encoding/scaling). -/
structure GroupedRow where
  Estado : String
  ds : Int
  bioma : String
  area_fazenda_ha : ℚ
  area_floresta_ha : ℚ
  y : ℚ
  deriving DecidableEq, Repr

/-- The `groupby(['Estado', 'ds', 'bioma'])` aggregation of step 3: one row per
distinct key, areas summed, `y` reduced by `'first'`.  (pandas additionally
sorts the group keys; none of the properties proved here depend on row
order.) -/
def groupAgg (rows : List RawRow) : List GroupedRow :=
  ((rows.map fun r => (r.Estado, r.ds, r.bioma)).dedup).map fun k =>
    let members := rows.filter fun r => (r.Estado, r.ds, r.bioma) = k
    { Estado := k.1
      ds := k.2.1
      bioma := k.2.2
      area_fazenda_ha := (members.map (·.area_fazenda_ha)).sum
      area_floresta_ha := (members.map (·.area_floresta_ha)).sum
      y := ((members.map (·.y)).headD 0) }

/-- Column layout of the frame returned by `preprocess_data` (`col_order`). -/
def col_order : List String :=
  ["ds", "y", "Estado", "bioma",
   "area_fazenda_ha", "area_floresta_ha", "prop_floresta", "estado_code"]

/-- One row of the processed frame: identifiers plus the scaled covariates. -/
structure ProcessedRow where
  ds : Int
  y : ℚ
  Estado : String
  bioma : String
  features : Scaled4
  deriving DecidableEq, Repr

/-- Arithmetic mean of a list of rationals (`len = 0` never reached: the
scaling step rejects an empty matrix first). -/
def listMean (l : List ℚ) : ℚ := l.sum / l.length

/-- Biased variance (numpy/sklearn default `ddof = 0`). -/
def listVar (l : List ℚ) : ℚ :=
  listMean (l.map fun x => (x - listMean l) ^ 2)

/-- `StandardScaler.fit` on the four-column feature matrix. -/
def fitScaler (m : List Feat4) : ScalerParams :=
  { mean :=
      { area_fazenda_ha := listMean (m.map (·.area_fazenda_ha))
        area_floresta_ha := listMean (m.map (·.area_floresta_ha))
        prop_floresta := listMean (m.map (·.prop_floresta))
        estado_code := listMean (m.map (·.estado_code)) }
    variance :=
      { area_fazenda_ha := listVar (m.map (·.area_fazenda_ha))
        area_floresta_ha := listVar (m.map (·.area_floresta_ha))
        prop_floresta := listVar (m.map (·.prop_floresta))
        estado_code := listVar (m.map (·.estado_code)) } }

/-- `StandardScaler.transform` of one feature row with fitted parameters. -/
def transformWith (p : ScalerParams) (x : Feat4) : Scaled4 :=
  { area_fazenda_ha :=
      { centered := x.area_fazenda_ha - p.mean.area_fazenda_ha
        variance := p.variance.area_fazenda_ha }
    area_floresta_ha :=
      { centered := x.area_floresta_ha - p.mean.area_floresta_ha
        variance := p.variance.area_floresta_ha }
    prop_floresta :=
      { centered := x.prop_floresta - p.mean.prop_floresta
        variance := p.variance.prop_floresta }
    estado_code :=
      { centered := x.estado_code - p.mean.estado_code
        variance := p.variance.estado_code } }

/-- Required input columns of `preprocess_data` (the set literal of step 1). -/
def requiredRawCols : List String :=
  ["ds", "y", "Estado", "area_floresta_ha", "area_fazenda_ha", "bioma"]

/-- The `prop_floresta` computation of step 4 (`np.where` guard). -/
def propFloresta (fazenda floresta : ℚ) : ℚ :=
  if fazenda + floresta > 0 then floresta / (fazenda + floresta) else 0

/-- The unscaled covariate row of one aggregated record, with the state code
produced by the fitted encoder. -/
def featOf (g : GroupedRow) (code : Nat) : Feat4 :=
  { area_fazenda_ha := g.area_fazenda_ha
    area_floresta_ha := g.area_floresta_ha
    prop_floresta := propFloresta g.area_fazenda_ha g.area_floresta_ha
    estado_code := (code : ℚ) }

/-- Step 5 of `preprocess_data`: encode every `Estado` of the aggregated frame
with the already-fitted global encoder; `ValueError` lists the unmapped states
when any row's state is unseen. -/
def encodeEstados (enc : EncoderState) (grouped : List GroupedRow) :
    Except PreprocessError (List (GroupedRow × Nat)) :=
  if ((grouped.filter fun g => ¬ g.Estado ∈ enc.classes).map (·.Estado)).isEmpty then
    .ok (grouped.map fun g => (g, enc.classes.indexOf g.Estado))
  else
    .error (.unknownEstados
      ((grouped.filter fun g => ¬ g.Estado ∈ enc.classes).map (·.Estado)).dedup)

/-- Step 6 of `preprocess_data`: scale the four covariates.  The
`hasattr(self.preprocessor, 'mean_')` guard selects between `transform` and
`fit_transform`; since a `ColumnTransformer` never carries `mean_`, the
`fit_transform` path runs on every call.  The `try/except` of the code turns
any exception of this step (fit on an empty matrix, `None.fit_transform`)
into `RuntimeError('Falha no escalonamento')`. -/
def preprocess_scaling (fc : ForecasterState) (coded : List (GroupedRow × Nat)) :
    Except PreprocessError (ForecasterState × List ProcessedRow) :=
  if hasattrMean fc.preprocessor then
    -- dead branch: the guard is never true
    match fc.preprocessor with
    | some { params := some p } =>
      .ok (fc, coded.map fun gc =>
        { ds := gc.1.ds, y := gc.1.y, Estado := gc.1.Estado, bioma := gc.1.bioma
          features := transformWith p (featOf gc.1 gc.2) })
    | _ => .error .scalingFailed
  else
    match fc.preprocessor with
    | none => .error .scalingFailed
    | some _ =>
      if (coded.map fun gc => featOf gc.1 gc.2).isEmpty then .error .scalingFailed
      else
        .ok ({ fc with
                 preprocessor := some ⟨some (fitScaler (coded.map fun gc => featOf gc.1 gc.2))⟩ },
          coded.map fun gc =>
            { ds := gc.1.ds, y := gc.1.y, Estado := gc.1.Estado, bioma := gc.1.bioma
              features :=
                transformWith (fitScaler (coded.map fun gc => featOf gc.1 gc.2))
                  (featOf gc.1 gc.2) })

/-- `UnifiedForecaster.preprocess_data`.  Returns the updated forecaster state
(the preprocessor is mutated by `fit_transform`) and the processed frame, or
the error the Python code raises.  The timestamp parse of step 2 is the
identity on the year representation; the `±inf → 0` sanitization of `y` has no
effect on rational inputs. -/
def preprocess_data (fc : ForecasterState) (df : RawDF) :
    Except PreprocessError (ForecasterState × List ProcessedRow) :=
  if ¬ "y" ∈ df.cols then .error .missingY
  else if ¬ (requiredRawCols.filter fun c => ¬ c ∈ df.cols).isEmpty then
    .error (.missingColumns (requiredRawCols.filter fun c => ¬ c ∈ df.cols))
  else if (groupAgg df.rows).any fun g =>
      g.area_fazenda_ha + g.area_floresta_ha ≤ 0 then
    .error .invalidArea
  else
    match fc.encoder_estados with
    | none => .error .encoderNotConfigured
    | some enc =>
      match encodeEstados enc (groupAgg df.rows) with
      | .error e => .error e
      | .ok coded => preprocess_scaling fc coded

/-- The original cause of a training failure, preserved by the wrapping
`RuntimeError` of `train` (its message embeds `str(e)` and Python chains the
exception context). -/
inductive TrainCause where
  /-- an error raised by `preprocess_data` -/
  | preprocessFailed (e : PreprocessError)
  /-- `ValueError`: columns missing after preprocessing -/
  | missingProcessedCols (missing : List String)
  /-- `Prophet.add_regressor` raised: regressors must be added before fit -/
  | regressorAfterFit
  /-- `Prophet.fit` raised: a Prophet object can only be fit once -/
  | fitTwice
  /-- `AttributeError`: `self.model` is `None` -/
  | modelMissing
  /-- the underlying Stan/MCMC estimation failed -/
  | engineFailure (msg : String)
  deriving DecidableEq, Repr

/-- The exception leaving `train`: always the wrapping
`RuntimeError('Falha no treinamento: ...')` of the `except` clause. -/
inductive TrainError where
  | trainingFailure (cause : TrainCause)
  deriving DecidableEq, Repr

/-- Whether a training-failure cause is a lifecycle/state complaint (the
errors produced when `train` is invoked on an already-trained model). -/
def TrainCause.isStateKind : TrainCause → Bool
  | .regressorAfterFit => true
  | .fitTwice => true
  | _ => false

/-- The regressor-registration loop of `train` step 4: `add_regressor` for
every feature column not already registered; `Prophet.add_regressor` raises
when the model has already been fit.  Returns the (possibly partially)
mutated model together with the error, if any. -/
def addRegressors : ProphetState → List String → ProphetState × Option TrainCause
  | m, [] => (m, none)
  | m, c :: cs =>
    if c ∈ m.extra_regressors then addRegressors m cs
    else if m.fitted then (m, some .regressorAfterFit)
    else addRegressors { m with extra_regressors := m.extra_regressors ++ [c] } cs

/-- `Prophet.fit`: raises when the object was already fit
(`'Prophet object can only be fit once'`); otherwise runs the numeric
engine. -/
def prophetFit (m : ProphetState) (engine : EngineOutcome) :
    Except TrainCause ProphetState :=
  if m.fitted then .error .fitTwice
  else
    match engine with
    | .ok => .ok { m with fitted := true }
    | .fail s => .error (.engineFailure s)

/-- `ColumnTransformer.get_feature_names_out` after the fit performed inside
`preprocess_data`: the transformer was fit on exactly the four feature
columns (the passthrough remainder saw no extra columns) and
`verbose_feature_names_out=False` keeps the original names. -/
def get_feature_names_out (fc : ForecasterState) : List String :=
  fc.feature_columns

/-- `UnifiedForecaster.train`.  Every failure is caught by the `except`
clause, which sets `is_trained = False` and re-raises
`RuntimeError('Falha no treinamento: ...')`; the returned state reflects the
mutations performed before the failure.  `engine` abstracts the outcome of
the underlying Stan estimation. -/
def train (fc : ForecasterState) (df : RawDF) (engine : EngineOutcome) :
    ForecasterState × Option TrainError :=
  match preprocess_data fc df with
  | .error e =>
    ({ fc with is_trained := false }, some (.trainingFailure (.preprocessFailed e)))
  | .ok (fc1, _dfp) =>
    if ¬ ((["ds", "y"] ++ get_feature_names_out fc1).filter
        fun c => ¬ c ∈ col_order).isEmpty then
      ({ fc1 with is_trained := false },
        some (.trainingFailure (.missingProcessedCols
          ((["ds", "y"] ++ get_feature_names_out fc1).filter
            fun c => ¬ c ∈ col_order))))
    else
      match fc1.model with
      | none =>
        ({ fc1 with is_trained := false }, some (.trainingFailure .modelMissing))
      | some m =>
        match addRegressors m (fc1.feature_columns.filter fun c => c ∈ col_order) with
        | (m1, some cause) =>
          ({ fc1 with model := some m1, is_trained := false },
            some (.trainingFailure cause))
        | (m1, none) =>
          match prophetFit m1 engine with
          | .error cause =>
            ({ fc1 with model := some m1, is_trained := false },
              some (.trainingFailure cause))
          | .ok mf =>
            ({ fc1 with model := some mf, is_trained := true }, none)

/-- The serialized bundle written by `save_model` / read by `load_model`.
`Option` fields model `artifacts.get(key)` returning `None` for an absent
key. -/
structure Artifact where
  model : Option ProphetState
  preprocessor : Option PreprocessorState
  encoder_estados : Option EncoderState
  feature_columns : Option (List String)
  geo_columns : Option (List String)
  deriving DecidableEq, Repr

/-- The original cause inside the load-failure wrapper. -/
inductive LoadCause where
  /-- `RuntimeError`: `encoder_estados` absent from the artifact -/
  | missingEncoder
  /-- `RuntimeError('Pré-processador não foi ajustado corretamente')` -/
  | preprocessorNotRestored
  deriving DecidableEq, Repr

/-- Errors raised by `load_model`. -/
inductive LoadError where
  /-- `FileNotFoundError`, re-raised with the path in the message -/
  | fileNotFound
  /-- the wrapping `RuntimeError('Erro ao carregar o modelo: ...')` -/
  | loadFailure (cause : LoadCause)
  deriving DecidableEq, Repr

/-- The Python guard `hasattr(forecaster.preprocessor, 'transform')` in
`load_model`: `transform` is a method defined on every `ColumnTransformer`
object, fitted or not, so the guard only distinguishes a restored transformer
object from `None` — it does not detect an unfitted scaler. -/
def hasattrTransform : Option PreprocessorState → Bool
  | none => false
  | some _ => true

/-- `UnifiedForecaster.load_model`.  `file = none` models a missing artifact
file. -/
def load_model (file : Option Artifact) : Except LoadError ForecasterState :=
  match file with
  | none => .error .fileNotFound
  | some a =>
    let fc : ForecasterState :=
      { initForecaster with
        model := a.model
        preprocessor := a.preprocessor
        feature_columns := a.feature_columns.getD []
        geo_columns := a.geo_columns.getD []
        encoder_estados := a.encoder_estados }
    match a.encoder_estados with
    | none => .error (.loadFailure .missingEncoder)
    | some _ =>
      if hasattrTransform fc.preprocessor then
        .ok { fc with is_trained := true }
      else
        .error (.loadFailure .preprocessorNotRestored)

/-- Errors raised by `save_model`. -/
inductive SaveError where
  /-- `RuntimeError('Modelo não treinado')` -/
  | notTrained
  /-- `ValueError`: a required artifact attribute is `None` -/
  | missingArtifact (name : String)
  deriving DecidableEq, Repr

/-- `UnifiedForecaster.save_model`: integrity checks, then the serialized
bundle (the metadata timestamp and state list are not modelled; they do not
affect any claim). -/
def save_model (fc : ForecasterState) : Except SaveError Artifact :=
  if ¬ fc.is_trained then .error .notTrained
  else if fc.model = none then .error (.missingArtifact "model")
  else if fc.preprocessor = none then .error (.missingArtifact "preprocessor")
  else if fc.encoder_estados = none then .error (.missingArtifact "encoder_estados")
  else
    .ok { model := fc.model
          preprocessor := fc.preprocessor
          encoder_estados := fc.encoder_estados
          feature_columns := some fc.feature_columns
          geo_columns := some fc.geo_columns }

/-- One raw row of the dataset loaded by the training driver
(`train_time_series.main`), before the clip/group/rename pipeline. -/
structure DriverRow where
  Estado : String
  ano : Int
  bioma : String
  area_fazenda_ha : ℚ
  area_floresta_ha : ℚ
  taxa_conversao_anual : ℚ
  deriving DecidableEq, Repr

/-- The driver's `clip(lower=0.0001)` on both area columns, applied before
any grouping. -/
def clipAreas (rows : List DriverRow) : List DriverRow :=
  rows.map fun r =>
    { r with
      area_fazenda_ha := max r.area_fazenda_ha (1 / 10000)
      area_floresta_ha := max r.area_floresta_ha (1 / 10000) }

/-- The driver's `groupby(['Estado', 'ano', 'bioma'])` aggregation: areas
summed, `taxa_conversao_anual` reduced to the average weighted by the
(already clipped) `area_fazenda_ha` values, then renamed to the `ds`/`y`
layout of `preprocess_data`. -/
def driverGroup (rows : List DriverRow) : List RawRow :=
  ((rows.map fun r => (r.Estado, r.ano, r.bioma)).dedup).map fun k =>
    let members := rows.filter fun r => (r.Estado, r.ano, r.bioma) = k
    let weights := members.map (·.area_fazenda_ha)
    { Estado := k.1
      ds := k.2.1
      bioma := k.2.2
      area_fazenda_ha := (members.map (·.area_fazenda_ha)).sum
      area_floresta_ha := (members.map (·.area_floresta_ha)).sum
      y := ((members.map fun r => r.taxa_conversao_anual * r.area_fazenda_ha).sum)
            / weights.sum }

/-- The per-state frame handed to `forecaster.train` by the driver loop:
clipped, grouped, renamed, filtered to one `Estado` (the added constant
`estado_code` column is recomputed by `preprocess_data` and therefore not
carried in the rows). -/
def driverDF (rows : List DriverRow) (estado : String) : RawDF :=
  { cols := ["Estado", "ds", "bioma",
             "area_fazenda_ha", "area_floresta_ha", "y", "estado_code"]
    rows := (driverGroup (clipAreas rows)).filter fun r => r.Estado = estado }

/-- The `initial_conditions` dictionary passed to `predict`: each key either
absent (`none`) or bound to a value of the type the code expects.  (The
`isinstance` checks of validation step 2 always succeed on this typed
embedding; no claim concerns a wrongly-typed value.) -/
structure Inputs where
  area_fazenda_ha : Option ℚ
  area_floresta_ha : Option ℚ
  prop_floresta : Option ℚ
  estado_code : Option Int
  Estado : Option String
  bioma : Option String
  y : Option ℚ
  last_year : Option Int
  deriving DecidableEq, Repr

/-- The failure causes that can arise inside `predict`. -/
inductive PredictError where
  /-- `ValueError`: `'last_year' é obrigatório'` (raised before the `try`) -/
  | missingLastYear
  /-- `ValueError('Inputs faltando: ...')` from `_validate_inputs` step 1 -/
  | missingInputs (keys : List String)
  /-- `ValueError` from `_validate_inputs` step 3 (range violation) -/
  | outOfRange (key : String)
  /-- `ValueError('Bioma inválido ...')` from `_validate_inputs` step 4 -/
  | invalidBioma
  /-- `ValueError('Estado ... não foi visto ...')` from `_validate_inputs` step 5 -/
  | unknownEstado
  /-- `ValueError('horizon deve ser um inteiro positivo')` -/
  | invalidHorizon
  /-- `AttributeError`: `self.encoder_estados` is `None` -/
  | encoderNotConfigured
  /-- `ValueError` while encoding the state with `LabelEncoder.transform` -/
  | estadoEncodeError
  /-- `AttributeError`: `self.preprocessor` is `None` -/
  | preprocessorMissing
  /-- sklearn `NotFittedError`: `transform` on a never-fitted transformer -/
  | scalerNotFitted
  /-- `AttributeError`: `self.model` is `None` -/
  | modelMissing
  /-- `Prophet.predict` on a model that has not been fit -/
  | modelNotFit
  deriving DecidableEq, Repr

/-- How a failure of `predict` reaches the caller.  `unwrapped` models the
`last_year` check that precedes the `try` block: a bare `ValueError`, neither
logged nor wrapped.  `predictionFailure` models the `except` clause: the
error is first logged with the region name (`initial_conditions.get('Estado')`;
`none` stands for the `'Estado desconhecido'` fallback) and then re-raised as
`RuntimeError('Falha na geração de previsões: ...') from e`, so the original
cause is chained. -/
inductive PredictFailure where
  | unwrapped (e : PredictError)
  | predictionFailure (loggedEstado : Option String) (cause : PredictError)
  deriving DecidableEq, Repr

/-- The closed set of biome names accepted by `_validate_inputs` step 4. -/
def valid_biomas : List String :=
  ["Amazônia", "Caatinga", "Cerrado", "Pantanal", "Mata Atlântica", "Pampa"]

/-- The keys demanded by `_validate_inputs` step 1:
`feature_columns + geo_columns + ['y', 'last_year']`. -/
def requiredKeys : List String :=
  ["area_fazenda_ha", "area_floresta_ha", "prop_floresta", "estado_code",
   "Estado", "bioma", "y", "last_year"]

/-- The keys of `requiredKeys` absent from the supplied mapping, in the order
the validation comprehension produces them. -/
def missingKeys (inputs : Inputs) : List String :=
  (if inputs.area_fazenda_ha.isNone then ["area_fazenda_ha"] else []) ++
  (if inputs.area_floresta_ha.isNone then ["area_floresta_ha"] else []) ++
  (if inputs.prop_floresta.isNone then ["prop_floresta"] else []) ++
  (if inputs.estado_code.isNone then ["estado_code"] else []) ++
  (if inputs.Estado.isNone then ["Estado"] else []) ++
  (if inputs.bioma.isNone then ["bioma"] else []) ++
  (if inputs.y.isNone then ["y"] else []) ++
  (if inputs.last_year.isNone then ["last_year"] else [])

/-- `UnifiedForecaster._validate_inputs`.  The checks run in the order of the
code: required keys, types (always satisfied here), numeric ranges, biome,
then the state (only when an encoder with `classes_` is attached).  After the
step-1 check every later `inputs[key]` access is on a present key, so the
`getD` defaults below are never the value actually read. -/
def validate_inputs (fc : ForecasterState) (inputs : Inputs) :
    Except PredictError Unit :=
  let missing := missingKeys inputs
  if ¬ missing.isEmpty then .error (.missingInputs missing)
  else if inputs.area_fazenda_ha.getD 0 < 0 then .error (.outOfRange "area_fazenda_ha")
  else if inputs.area_floresta_ha.getD 0 < 0 then .error (.outOfRange "area_floresta_ha")
  else if inputs.prop_floresta.getD 0 < 0 then .error (.outOfRange "prop_floresta")
  else if inputs.prop_floresta.getD 0 > 1 then .error (.outOfRange "prop_floresta")
  else if ¬ inputs.bioma.getD "" ∈ valid_biomas then .error .invalidBioma
  else
    match fc.encoder_estados with
    | none => .ok ()
    | some enc =>
      if ¬ inputs.Estado.getD "" ∈ enc.classes then .error .unknownEstado
      else .ok ()

/-- The `estado_code` derivation of `predict` (only when the key is absent —
which validation step 1 has already ruled out, leaving this branch dead).
With no encoder attached, `None.transform` raises `AttributeError`. -/
def deriveEstadoCode (fc : ForecasterState) (inputs : Inputs) :
    Except PredictError Inputs :=
  match inputs.estado_code with
  | some _ => .ok inputs
  | none =>
    match fc.encoder_estados with
    | none => .error .encoderNotConfigured
    | some enc =>
      match enc.transform1 (inputs.Estado.getD "") with
      | .ok c => .ok { inputs with estado_code := some (c : Int) }
      | .error _ => .error .estadoEncodeError

/-- The `prop_floresta` derivation of `predict` (likewise dead after
validation, which requires the key). -/
def derivePropFloresta (inputs : Inputs) : Inputs :=
  match inputs.prop_floresta with
  | some _ => inputs
  | none =>
    let total := inputs.area_fazenda_ha.getD 0 + inputs.area_floresta_ha.getD 0
    { inputs with
      prop_floresta :=
        some (if total > 0 then inputs.area_floresta_ha.getD 0 / total else 0) }

/-- The annual timestamps built by `_create_future_dataframe`:
`pd.date_range(start=f"{last_year+1}-01-01", periods=horizon+1, freq='YS')`
truncated with `[:horizon]`. -/
def futureYears (last_year : Int) (horizon : Nat) : List Int :=
  (((List.range (horizon + 1)).map fun (i : Nat) => last_year + 1 + (i : Int))).take
    horizon

/-- One row of the future covariate frame: covariates held constant at the
initial conditions, one row per projected year. -/
structure FutureRow where
  ds : Int
  y : ℚ
  area_fazenda_ha : ℚ
  area_floresta_ha : ℚ
  prop_floresta : ℚ
  estado_code : Int
  Estado : String
  bioma : String
  deriving DecidableEq, Repr

/-- `UnifiedForecaster._create_future_dataframe`.  The numeric type checks
always pass on the typed embedding.  The code re-encodes the state into a
local variable only to surface an encoding error; the frame itself uses
`int(initial['estado_code'])` from the mapping. -/
def create_future_dataframe (fc : ForecasterState) (inputs : Inputs)
    (horizon : Nat) : Except PredictError (List FutureRow) :=
  match fc.encoder_estados with
  | none => .error .encoderNotConfigured
  | some enc =>
    match enc.transform1 (inputs.Estado.getD "") with
    | .error _ => .error .estadoEncodeError
    | .ok _ =>
      .ok ((futureYears (inputs.last_year.getD 0) horizon).map fun d =>
        { ds := d
          y := inputs.y.getD 0
          area_fazenda_ha := inputs.area_fazenda_ha.getD 0
          area_floresta_ha := inputs.area_floresta_ha.getD 0
          prop_floresta := inputs.prop_floresta.getD 0
          estado_code := inputs.estado_code.getD 0
          Estado := inputs.Estado.getD ""
          bioma := inputs.bioma.getD "" })

/-- A row of `future_processed`: the timestamp and continuity reference kept
for Prophet, plus the four covariates scaled with the already-stored
parameters. -/
structure ProcessedFutureRow where
  ds : Int
  y : ℚ
  features : Scaled4
  deriving DecidableEq, Repr

/-- The `self.preprocessor.transform(future[self.feature_columns])` step of
`predict`: `AttributeError` when the preprocessor is `None`, sklearn
`NotFittedError` when it was never fitted, otherwise a pure transform with
the stored parameters (never a refit). -/
def transformFuture (fc : ForecasterState) (future : List FutureRow) :
    Except PredictError (List ProcessedFutureRow) :=
  match fc.preprocessor with
  | none => .error .preprocessorMissing
  | some pp =>
    match pp.params with
    | none => .error .scalerNotFitted
    | some p =>
      .ok (future.map fun r =>
        { ds := r.ds
          y := r.y
          features := transformWith p
            { area_fazenda_ha := r.area_fazenda_ha
              area_floresta_ha := r.area_floresta_ha
              prop_floresta := r.prop_floresta
              estado_code := (r.estado_code : ℚ) } })

/-- One forecast row produced by `Prophet.predict`: point forecast and the
95% uncertainty bounds. -/
structure Pred where
  yhat : ℚ
  yhat_lower : ℚ
  yhat_upper : ℚ
  deriving DecidableEq, Repr

/-- `Prophet.predict` on the future frame: raises when the wrapped model is
`None` or has not been fit; otherwise returns one forecast row per input row.
`engine` abstracts the fitted model's numeric response to a single future
row. -/
def prophetPredict (model : Option ProphetState) (rows : List ProcessedFutureRow)
    (engine : ProcessedFutureRow → Pred) : Except PredictError (List Pred) :=
  match model with
  | none => .error .modelMissing
  | some m =>
    if ¬ m.fitted then .error .modelNotFit
    else .ok (rows.map engine)

/-- numpy/pandas rounding to the nearest integer, ties to even
(the rule behind `DataFrame.round`). -/
def roundHalfEven (q : ℚ) : ℤ :=
  if Int.fract q < 1 / 2 then ⌊q⌋
  else if 1 / 2 < Int.fract q then ⌊q⌋ + 1
  else if ⌊q⌋ % 2 = 0 then ⌊q⌋ else ⌊q⌋ + 1

/-- `round(4)`: rounding to four decimal places. -/
def round4 (q : ℚ) : ℚ := (roundHalfEven (q * 10000) : ℚ) / 10000

/-- One row of the frame returned by `predict`. -/
structure ForecastRow where
  data : Int
  Estado : String
  bioma : String
  conversao_ha_prevista : ℚ
  limite_inferior : ℚ
  limite_superior : ℚ
  area_floresta_projetada : ℚ
  area_fazenda_projetada : ℚ
  deriving DecidableEq, Repr

/-- The tail of `predict`: the join with the geographic columns, the renames,
and the area reconstruction.  `Fprev` is the running cumulative product
`F0 * Π (1 - yhat)`; the farmland column is computed from the *unrounded*
forest column, and `round(4)` is applied to every numeric column at the
end. -/
def reconstructRows (A0 Fprev F0 : ℚ) :
    List (FutureRow × Pred) → List ForecastRow
  | [] => []
  | (fr, p) :: rest =>
    let f := Fprev * (1 - p.yhat)
    { data := fr.ds
      Estado := fr.Estado
      bioma := fr.bioma
      conversao_ha_prevista := round4 p.yhat
      limite_inferior := round4 p.yhat_lower
      limite_superior := round4 p.yhat_upper
      area_floresta_projetada := round4 f
      area_fazenda_projetada := round4 (A0 + (F0 - f)) } ::
      reconstructRows A0 f F0 rest

/-- The body of the `try` block of `UnifiedForecaster.predict`, in the order
of the code: validation, horizon check, derivations, future frame, scaling,
Prophet forecast, reconstruction. -/
def predictCore (fc : ForecasterState) (inputs0 : Inputs) (horizon : Int)
    (engine : ProcessedFutureRow → Pred) : Except PredictError (List ForecastRow) :=
  match validate_inputs fc inputs0 with
  | .error e => .error e
  | .ok _ =>
    if horizon ≤ 0 then .error .invalidHorizon
    else
      match deriveEstadoCode fc inputs0 with
      | .error e => .error e
      | .ok inputs1 =>
        match create_future_dataframe fc (derivePropFloresta inputs1) horizon.toNat with
        | .error e => .error e
        | .ok future =>
          match transformFuture fc future with
          | .error e => .error e
          | .ok futureProcessed =>
            match prophetPredict fc.model futureProcessed engine with
            | .error e => .error e
            | .ok preds =>
              .ok (reconstructRows
                ((derivePropFloresta inputs1).area_fazenda_ha.getD 0)
                ((derivePropFloresta inputs1).area_floresta_ha.getD 0)
                ((derivePropFloresta inputs1).area_floresta_ha.getD 0)
                (future.zip preds))

/-- `UnifiedForecaster.predict`: the bare `last_year` check precedes the
`try`; every other failure is logged and wrapped by the `except` clause. -/
def predict (fc : ForecasterState) (inputs : Inputs) (horizon : Int)
    (engine : ProcessedFutureRow → Pred) :
    Except PredictFailure (List ForecastRow) :=
  if inputs.last_year.isNone then .error (.unwrapped .missingLastYear)
  else
    match predictCore fc inputs horizon engine with
    | .ok rows => .ok rows
    | .error e => .error (.predictionFailure inputs.Estado e)

/-- Whether an `Except` value is a success. -/
def isOkE {ε α : Type} : Except ε α → Bool
  | .ok _ => true
  | .error _ => false

/-- The unscaled covariate matrix that `preprocess_data` assembles from a raw
frame under a given fitted encoder (the frame `df_grouped[self.feature_columns]`
on which the scaler is fit). -/
def covariateMatrix (enc : EncoderState) (rows : List RawRow) : List Feat4 :=
  (groupAgg rows).map fun g => featOf g (enc.classes.indexOf g.Estado)

/-- Example: the global encoder of the training driver, fit over two states. -/
def encEx : EncoderState := { classes := ["Acre", "Bahia"] }

/-- Example: an all-zero covariate row (used for concrete scaler parameters). -/
def featZero : Feat4 :=
  { area_fazenda_ha := 0, area_floresta_ha := 0, prop_floresta := 0, estado_code := 0 }

/-- Example: concrete fitted scaler parameters. -/
def paramsEx : ScalerParams := { mean := featZero, variance := featZero }

/-- Example: a Prophet state after a successful fit with all four covariates
registered as extra regressors. -/
def prophetTrained : ProphetState :=
  { extra_regressors :=
      ["area_fazenda_ha", "area_floresta_ha", "prop_floresta", "estado_code"]
    fitted := true }

/-- Example: a forecaster in the state reached after a successful `train`
(fitted preprocessor, global encoder attached, fitted model). -/
def fcTrained : ForecasterState :=
  { initForecaster with
    encoder_estados := some encEx
    preprocessor := some { params := some paramsEx }
    is_trained := true
    model := some prophetTrained }

/-- Example: an `initial_conditions` mapping holding exactly the six base
keys of the documented inference contract — the derived keys `prop_floresta`
and `estado_code` are absent. -/
def inputsSixKeys : Inputs :=
  { area_fazenda_ha := some 100000
    area_floresta_ha := some 900000
    prop_floresta := none
    estado_code := none
    Estado := some "Acre"
    bioma := some "Amazônia"
    y := some (1 / 100)
    last_year := some 2023 }

/-- Example: the same mapping with the two derived keys supplied as well. -/
def inputsFull : Inputs :=
  { inputsSixKeys with prop_floresta := some (9 / 10), estado_code := some 0 }

/-- Example: a constant model response — every projected year gets rate 1/2
with bounds [0, 1]. -/
def engineEx : ProcessedFutureRow → Pred :=
  fun _ => { yhat := 1 / 2, yhat_lower := 0, yhat_upper := 1 }

/-- Example: a one-row training frame for the state `Acre`. -/
def dfEx : RawDF :=
  { cols := ["Estado", "ds", "bioma", "area_fazenda_ha", "area_floresta_ha", "y"]
    rows := [{ ds := 2010, y := 1 / 100, Estado := "Acre", bioma := "Amazônia"
               area_fazenda_ha := 10, area_floresta_ha := 20 }] }

/-- Example: an artifact lacking the encoder entry. -/
def artifactNoEncoder : Artifact :=
  { model := some prophetTrained
    preprocessor := some { params := some paramsEx }
    encoder_estados := none
    feature_columns := some initForecaster.feature_columns
    geo_columns := some initForecaster.geo_columns }

/-- Example: an artifact whose preprocessor object was serialized before any
fit — it exists (so `hasattr(..., 'transform')` holds) but was never
fitted. -/
def artifactUnfittedScaler : Artifact :=
  { model := some prophetTrained
    preprocessor := some { params := none }
    encoder_estados := some encEx
    feature_columns := some initForecaster.feature_columns
    geo_columns := some initForecaster.geo_columns }

/-- Example: the forecaster state after calling `preprocess_data` on the
already-fitted `fcTrained` with `dfEx`: the stored parameters of `fcTrained`
(`paramsEx`) have been overwritten by a fresh fit on `dfEx`. -/
def stAfterRefit : ForecasterState :=
  { fcTrained with
    preprocessor := some { params := some (fitScaler (covariateMatrix encEx dfEx.rows)) } }

/-- Example: the processed frame produced by that call (one aggregated row,
all covariates centered at their own mean with zero variance). -/
def outAfterRefit : List ProcessedRow :=
  [{ ds := 2010, y := 1 / 100, Estado := "Acre", bioma := "Amazônia"
     features :=
       { area_fazenda_ha := { centered := 0, variance := 0 }
         area_floresta_ha := { centered := 0, variance := 0 }
         prop_floresta := { centered := 0, variance := 0 }
         estado_code := { centered := 0, variance := 0 } } }]

/-- Example: the two forecast rows `predict fcTrained inputsFull 2 engineEx`
returns — a constant rate of 1/2 halves the forest area each year while the
farmland area absorbs the difference. -/
def rowsEx : List ForecastRow :=
  [{ data := 2024, Estado := "Acre", bioma := "Amazônia"
     conversao_ha_prevista := 1 / 2, limite_inferior := 0, limite_superior := 1
     area_floresta_projetada := 450000, area_fazenda_projetada := 550000 },
   { data := 2025, Estado := "Acre", bioma := "Amazônia"
     conversao_ha_prevista := 1 / 2, limite_inferior := 0, limite_superior := 1
     area_floresta_projetada := 225000, area_fazenda_projetada := 775000 }]

/-- C1: a mapping containing only the six documented base keys is rejected by
`predict`: `_validate_inputs` runs before the derivation of `estado_code` and
`prop_floresta` and its required-key list contains both derived fields, so the
call fails with the missing-fields error naming exactly those two keys (the
in-function derivation code is unreachable for absent keys).  This evaluates
the code on a trained forecaster at the documented six-key input. -/
theorem predict_six_key_mapping_rejected_missing_fields :
    predict fcTrained inputsSixKeys 5 engineEx =
      .error (.predictionFailure (some "Acre")
        (.missingInputs ["prop_floresta", "estado_code"])) := by
  rfl

/-- C7 (counterexample): on a freshly constructed forecaster, `predict` with a
complete, well-formed mapping does not fail through a dedicated
StateError/NotTrained check — the raised error is the `PredictionFailure`
wrapper around the `AttributeError` from the unconfigured (`None`) encoder. -/
theorem predict_fresh_error_is_encoder_attribute_error :
    predict initForecaster inputsFull 5 engineEx =
      .error (.predictionFailure (some "Acre") .encoderNotConfigured) := by
  with_unfolding_all rfl

/-- Helper for C7: on a fresh instance `predictCore` fails on every input —
any path that survives validation, the horizon check and the derivations
reaches `_create_future_dataframe`, which dereferences the absent encoder. -/
theorem predictCore_init_always_fails (inputs : Inputs) (horizon : Int)
    (engine : ProcessedFutureRow → Pred) :
    ∃ err, predictCore initForecaster inputs horizon engine = .error err := by
  unfold predictCore
  split
  · exact ⟨_, rfl⟩
  · split
    · exact ⟨_, rfl⟩
    · split
      · exact ⟨_, rfl⟩
      · exact ⟨_, rfl⟩

/-- C7 (amended): calling `predict` on a freshly constructed instance fails
for every input, horizon and model response — but through the wrapped
encoder `AttributeError` (or an earlier validation error), not through a
dedicated StateError/NotTrained check. -/
theorem predict_fresh_always_fails (inputs : Inputs) (horizon : Int)
    (engine : ProcessedFutureRow → Pred) :
    ∃ f, predict initForecaster inputs horizon engine = .error f := by
  unfold predict
  split
  · exact ⟨_, rfl⟩
  · obtain ⟨err, h⟩ := predictCore_init_always_fails inputs horizon engine
    rw [h]
    exact ⟨_, rfl⟩

/-- C9: `load_model` does fail with the missing-encoder error when the
artifact lacks the encoder, but its "fitted preprocessor" guard only checks
`hasattr(..., 'transform')` — a method every `ColumnTransformer` object has,
fitted or not — so an artifact holding a never-fitted preprocessor loads
successfully and is marked trained, contradicting the documented
ScalerNotFitted failure. -/
theorem load_model_accepts_unfitted_scaler :
    load_model (some artifactNoEncoder) = .error (.loadFailure .missingEncoder) ∧
    ∃ fcL, load_model (some artifactUnfittedScaler) = .ok fcL ∧
      fcL.is_trained = true ∧ fcL.preprocessor = some { params := none } := by
  exact ⟨rfl, _, rfl, rfl, rfl⟩

/-- C8 (counterexample): a mapping lacking `last_year` makes `predict` raise
the bare `ValueError` of the pre-`try` check — the failure reaches the caller
unwrapped (no `PredictionFailure`, no logging), refuting "every failure is
wrapped". -/
theorem predict_missing_last_year_unwrapped :
    predict fcTrained { inputsFull with last_year := none } 5 engineEx =
      .error (.unwrapped .missingLastYear) := by
  rfl

/-- C8 (amended): every failure of `predict` other than the pre-`try`
missing-`last_year` `ValueError` reaches the caller as the logged
`PredictionFailure` wrapper carrying the mapping's region entry and the
original cause; the missing-`last_year` failure is the unique unwrapped
one. -/
theorem predict_failures_wrapped (fc : ForecasterState) (inputs : Inputs)
    (horizon : Int) (engine : ProcessedFutureRow → Pred) (f : PredictFailure)
    (h : predict fc inputs horizon engine = .error f) :
    (f = .unwrapped .missingLastYear ∧ inputs.last_year = none) ∨
    ∃ c, f = .predictionFailure inputs.Estado c := by
  unfold predict at h
  split at h
  · left
    refine ⟨by injection h with h1; exact h1.symm, ?_⟩
    exact Option.isNone_iff_eq_none.mp (by assumption)
  · split at h
    · cases h
    · right
      injection h with h1
      exact ⟨_, h1.symm⟩

/-- Witness for the amended C8 theorem at a concrete failing call (fresh
instance, complete mapping): the failure is the wrapped kind. -/
theorem predict_failures_wrapped_witness :
    (PredictFailure.predictionFailure (some "Acre") .encoderNotConfigured =
        .unwrapped .missingLastYear ∧ inputsFull.last_year = none) ∨
    ∃ c, PredictFailure.predictionFailure (some "Acre") .encoderNotConfigured =


      .predictionFailure inputsFull.Estado c :=
  predict_failures_wrapped initForecaster inputsFull 5 engineEx _ (by with_unfolding_all rfl)

/-- A nonempty list of rationals all bounded below by `c ≥ 0` has sum at
least `c`. -/
theorem le_sum_of_forall_le (c : ℚ) (hc : 0 ≤ c) :
    ∀ (l : List ℚ), l ≠ [] → (∀ x ∈ l, c ≤ x) → c ≤ l.sum := by
  intro l
  induction l with
  | nil => intro h; exact absurd rfl h
  | cons x xs ih =>
    intro _ hx
    have h1 : c ≤ x := hx x (List.mem_cons_self x xs)
    have h2 : 0 ≤ xs.sum :=
      List.sum_nonneg fun y hy => le_trans hc (hx y (List.mem_cons_of_mem x hy))
    rw [List.sum_cons]
    linarith

/-- Every key of the deduplicated key list has at least one member row, so
every group built by a pandas `groupby` aggregation is nonempty. -/
theorem filter_key_ne_nil {α κ : Type} [DecidableEq κ] (l : List α) (key : α → κ)
    (k : κ) (hk : k ∈ (l.map key).dedup) :
    l.filter (fun x => key x = k) ≠ [] := by
  rw [List.mem_dedup] at hk
  obtain ⟨x, hx, hkey⟩ := List.mem_map.mp hk
  exact List.ne_nil_of_mem (List.mem_filter.mpr ⟨hx, by simp [hkey]⟩)

/-- If every raw row's two areas are at least `c ≥ 0`, then so are the summed
areas of every row of the `preprocess_data` aggregation. -/
theorem groupAgg_area_bound (c : ℚ) (hc : 0 ≤ c) (rows : List RawRow)
    (hfaz : ∀ r ∈ rows, c ≤ r.area_fazenda_ha)
    (hflor : ∀ r ∈ rows, c ≤ r.area_floresta_ha) :
    ∀ g ∈ groupAgg rows, c ≤ g.area_fazenda_ha ∧ c ≤ g.area_floresta_ha := by
  intro g hg
  unfold groupAgg at hg
  obtain ⟨k, hk, rfl⟩ := List.mem_map.mp hg
  have hne := filter_key_ne_nil rows (fun r => (r.Estado, r.ds, r.bioma)) k hk
  have hsub : ∀ r ∈ rows.filter (fun r => (r.Estado, r.ds, r.bioma) = k), r ∈ rows :=
    fun r hr => (List.mem_filter.mp hr).1
  constructor
  · refine le_sum_of_forall_le c hc _ (by simpa using hne) ?_
    intro x hx
    obtain ⟨r, hr, rfl⟩ := List.mem_map.mp hx
    exact hfaz r (hsub r hr)
  · refine le_sum_of_forall_le c hc _ (by simpa using hne) ?_
    intro x hx
    obtain ⟨r, hr, rfl⟩ := List.mem_map.mp hx
    exact hflor r (hsub r hr)

/-- If every driver row's two areas are at least `c ≥ 0`, then so are the
summed areas of every row of the driver aggregation. -/
theorem driverGroup_area_bound (c : ℚ) (hc : 0 ≤ c) (rows : List DriverRow)
    (hfaz : ∀ r ∈ rows, c ≤ r.area_fazenda_ha)
    (hflor : ∀ r ∈ rows, c ≤ r.area_floresta_ha) :
    ∀ g ∈ driverGroup rows, c ≤ g.area_fazenda_ha ∧ c ≤ g.area_floresta_ha := by
  intro g hg
  unfold driverGroup at hg
  obtain ⟨k, hk, rfl⟩ := List.mem_map.mp hg
  have hne := filter_key_ne_nil rows (fun r => (r.Estado, r.ano, r.bioma)) k hk
  have hsub : ∀ r ∈ rows.filter (fun r => (r.Estado, r.ano, r.bioma) = k), r ∈ rows :=
    fun r hr => (List.mem_filter.mp hr).1
  constructor
  · refine le_sum_of_forall_le c hc _ (by simpa using hne) ?_
    intro x hx
    obtain ⟨r, hr, rfl⟩ := List.mem_map.mp hx
    exact hfaz r (hsub r hr)
  · refine le_sum_of_forall_le c hc _ (by simpa using hne) ?_
    intro x hx
    obtain ⟨r, hr, rfl⟩ := List.mem_map.mp hx
    exact hflor r (hsub r hr)

/-- After the driver's clip, every row's areas are at least `0.0001`. -/
theorem clipAreas_bound (rows : List DriverRow) :
    ∀ r ∈ clipAreas rows,
      1 / 10000 ≤ r.area_fazenda_ha ∧ 1 / 10000 ≤ r.area_floresta_ha := by
  intro r hr
  unfold clipAreas at hr
  obtain ⟨s, _, rfl⟩ := List.mem_map.mp hr
  exact ⟨le_max_right _ _, le_max_right _ _⟩

/-- The scaling stage either succeeds or raises the scaling failure — never
any other error. -/
theorem preprocess_scaling_error (fc : ForecasterState)
    (coded : List (GroupedRow × Nat)) (e : PreprocessError)
    (h : preprocess_scaling fc coded = .error e) : e = .scalingFailed := by
  unfold preprocess_scaling at h
  split at h
  · split at h
    · cases h
    · exact (Except.error.inj h).symm
  · split at h
    · exact (Except.error.inj h).symm
    · split at h
      · exact (Except.error.inj h).symm
      · cases h

/-- `encodeEstados` fails only with the unknown-states error. -/
theorem encodeEstados_error (enc : EncoderState) (grouped : List GroupedRow)
    (e : PreprocessError) (h : encodeEstados enc grouped = .error e) :
    ∃ l, e = .unknownEstados l := by
  unfold encodeEstados at h
  split at h
  · cases h
  · exact ⟨_, (Except.error.inj h).symm⟩

/-- The InvalidArea assertion of `preprocess_data` fires only when some
aggregated row has non-positive total area: every other exit of the function
is a different error or a success. -/
theorem preprocess_invalidArea_any (fc : ForecasterState) (df : RawDF)
    (h : preprocess_data fc df = .error .invalidArea) :
    ((groupAgg df.rows).any
      fun g => g.area_fazenda_ha + g.area_floresta_ha ≤ 0) = true := by
  unfold preprocess_data at h
  split at h
  · cases h
  · split at h
    · cases h
    · split at h
      · assumption
      · split at h
        · cases h
        · split at h
          · rename_i e heq
            obtain ⟨l, rfl⟩ := encodeEstados_error _ _ _ heq
            cases Except.error.inj h
          · cases preprocess_scaling_error _ _ _ h

/-- C10: because the training driver clips both area columns to the lower
bound 0.0001 before its own grouping, every row of the per-state frame it
hands to `train` has areas at least 0.0001, hence every row of the
`preprocess_data` aggregation has strictly positive total area, and the
InvalidArea assertion cannot fire on the driver path, whatever the input
dataset and forecaster state. -/
theorem driver_clip_invalid_area_unreachable (rows : List DriverRow)
    (estado : String) (fc : ForecasterState) :
    (∀ g ∈ groupAgg (driverDF rows estado).rows,
        0 < g.area_fazenda_ha + g.area_floresta_ha) ∧
    preprocess_data fc (driverDF rows estado) ≠ .error .invalidArea := by
  have hbase : ∀ r ∈ (driverDF rows estado).rows,
      1 / 10000 ≤ r.area_fazenda_ha ∧ 1 / 10000 ≤ r.area_floresta_ha := by
    intro r hr
    have hr' : r ∈ driverGroup (clipAreas rows) := by
      have := hr
      unfold driverDF at this
      exact (List.mem_filter.mp this).1
    exact driverGroup_area_bound (1 / 10000) (by norm_num) _
      (fun s hs => (clipAreas_bound rows s hs).1)
      (fun s hs => (clipAreas_bound rows s hs).2) r hr'
  have hpos : ∀ g ∈ groupAgg (driverDF rows estado).rows,
      0 < g.area_fazenda_ha + g.area_floresta_ha := by
    intro g hg
    have hb := groupAgg_area_bound (1 / 10000) (by norm_num) _
      (fun r hr => (hbase r hr).1) (fun r hr => (hbase r hr).2) g hg
    linarith [hb.1, hb.2]
  refine ⟨hpos, ?_⟩
  intro hcontra
  have hany : ((groupAgg (driverDF rows estado).rows).any
      fun g => g.area_fazenda_ha + g.area_floresta_ha ≤ 0) = false := by
    rw [List.any_eq_false]
    intro g hg
    simpa using not_le.mpr (hpos g hg)
  have := preprocess_invalidArea_any fc (driverDF rows estado) hcontra
  rw [hany] at this
  cases this

/-- C5: whatever input makes `train` raise — a preprocessing/validation error
or a failure of the underlying fit — the `except` clause leaves the instance
with `is_trained = False` and the exception reaching the caller is the
training-failure wrapper carrying the original cause. -/
theorem train_failure_untrained_and_wrapped (fc : ForecasterState) (df : RawDF)
    (engine : EngineOutcome) (st : ForecasterState) (e : TrainError)
    (h : train fc df engine = (st, some e)) :
    st.is_trained = false ∧ ∃ c, e = .trainingFailure c := by
  unfold train at h
  split at h
  · rw [Prod.mk.injEq] at h
    obtain ⟨h1, h2⟩ := h
    subst h1
    injection h2 with h3
    subst h3
    exact ⟨rfl, _, rfl⟩
  · split at h
    · rw [Prod.mk.injEq] at h
      obtain ⟨h1, h2⟩ := h
      subst h1
      injection h2 with h3
      subst h3
      exact ⟨rfl, _, rfl⟩
    · split at h
      · rw [Prod.mk.injEq] at h
        obtain ⟨h1, h2⟩ := h
        subst h1
        injection h2 with h3
        subst h3
        exact ⟨rfl, _, rfl⟩
      · split at h
        · rw [Prod.mk.injEq] at h
          obtain ⟨h1, h2⟩ := h
          subst h1
          injection h2 with h3
          subst h3
          exact ⟨rfl, _, rfl⟩
        · split at h
          · rw [Prod.mk.injEq] at h
            obtain ⟨h1, h2⟩ := h
            subst h1
            injection h2 with h3
            subst h3
            exact ⟨rfl, _, rfl⟩
          · rw [Prod.mk.injEq] at h
            exact Option.noConfusion h.2

/-- Witness for C5 at a concrete failing call: training a fresh instance
without a configured encoder fails, leaves the instance untrained and wraps
the cause. -/
theorem train_failure_untrained_and_wrapped_witness :
    initForecaster.is_trained = false ∧
    ∃ c, TrainError.trainingFailure (.preprocessFailed .encoderNotConfigured) =
      .trainingFailure c :=
  train_failure_untrained_and_wrapped initForecaster dfEx .ok initForecaster
    (.trainingFailure (.preprocessFailed .encoderNotConfigured)) (by with_unfolding_all rfl)

/-- `preprocess_data` only mutates the preprocessor: model, feature columns,
encoder and trained flag of the returned state equal the input's. -/
theorem preprocess_ok_state (fc : ForecasterState) (df : RawDF)
    (fc1 : ForecasterState) (out : List ProcessedRow)
    (h : preprocess_data fc df = .ok (fc1, out)) :
    fc1.model = fc.model ∧ fc1.feature_columns = fc.feature_columns ∧
    fc1.encoder_estados = fc.encoder_estados ∧ fc1.is_trained = fc.is_trained := by
  unfold preprocess_data preprocess_scaling at h
  split at h
  · exact Except.noConfusion h
  · split at h
    · exact Except.noConfusion h
    · split at h
      · exact Except.noConfusion h
      · split at h
        · exact Except.noConfusion h
        · split at h
          · exact Except.noConfusion h
          · split at h
            · split at h
              · have h' := Except.ok.inj h
                rw [Prod.mk.injEq] at h'
                obtain ⟨h1, _⟩ := h'
                subst h1
                exact ⟨rfl, rfl, rfl, rfl⟩
              · exact Except.noConfusion h
            · split at h
              · exact Except.noConfusion h
              · split at h
                · exact Except.noConfusion h
                · have h' := Except.ok.inj h
                  rw [Prod.mk.injEq] at h'
                  obtain ⟨h1, _⟩ := h'
                  subst h1
                  exact ⟨rfl, rfl, rfl, rfl⟩

/-- On an already-fitted Prophet the regressor loop either registers nothing
(every column already present) or raises the add-after-fit state error; the
model is never modified. -/
theorem addRegressors_fitted (m : ProphetState) (hfit : m.fitted = true) :
    ∀ cols, addRegressors m cols = (m, none) ∨
      addRegressors m cols = (m, some .regressorAfterFit) := by
  intro cols
  induction cols with
  | nil => exact Or.inl rfl
  | cons c cs ih =>
    unfold addRegressors
    by_cases hc : c ∈ m.extra_regressors
    · rw [if_pos hc]
      exact ih
    · rw [if_neg hc, if_pos hfit]
      exact Or.inr rfl

/-- C6: invoking `train` on an instance whose underlying Prophet model has
already been fit (the state every instance reaches through a successful
`train` or through loading a saved artifact) always fails: the result carries
an error, the instance is flagged untrained, and — whenever the input itself
preprocesses cleanly — the wrapped cause is one of the two
lifecycle/state complaints of the underlying engine (`add_regressor` after
fit, or `fit` called twice), so no second training ever succeeds in place and
a fresh instance is required to retrain. -/
theorem trained_rejects_retrain (fc : ForecasterState) (m : ProphetState)
    (hm : fc.model = some m) (hfit : m.fitted = true)
    (hcols : fc.feature_columns = initForecaster.feature_columns)
    (df : RawDF) (engine : EngineOutcome) :
    (train fc df engine).2 ≠ none ∧
    (train fc df engine).1.is_trained = false ∧
    (isOkE (preprocess_data fc df) = true →
      ∃ c, (train fc df engine).2 = some (.trainingFailure c) ∧
        c.isStateKind = true) := by
  cases hpre : preprocess_data fc df with
  | error e =>
    have htr : train fc df engine =
        ({ fc with is_trained := false },
          some (.trainingFailure (.preprocessFailed e))) := by
      unfold train
      rw [hpre]
    rw [htr]
    refine ⟨by simp, rfl, ?_⟩
    intro hok
    simp [isOkE] at hok
  | ok pr =>
    obtain ⟨fc1, out⟩ := pr
    obtain ⟨hmodel, hcols1, _, _⟩ := preprocess_ok_state fc df fc1 out hpre
    have hfeat : fc1.feature_columns = initForecaster.feature_columns := by
      rw [hcols1, hcols]
    have hmiss : ¬ ¬ ((["ds", "y"] ++ get_feature_names_out fc1).filter
        fun c => ¬ c ∈ col_order).isEmpty = true := by
      unfold get_feature_names_out
      rw [hfeat]
      decide
    have hmodel' : fc1.model = some m := by rw [hmodel, hm]
    rcases addRegressors_fitted m hfit
        (fc1.feature_columns.filter fun c => c ∈ col_order) with hadd | hadd
    · have hfit2 : prophetFit m engine = .error .fitTwice := by
        unfold prophetFit
        rw [if_pos hfit]
      have htr : train fc df engine =
          ({ fc1 with model := some m, is_trained := false },
            some (.trainingFailure .fitTwice)) := by
        unfold train
        rw [hpre]
        dsimp only
        rw [if_neg hmiss, hmodel']
        dsimp only
        rw [hadd]
        dsimp only
        rw [hfit2]
      rw [htr]
      exact ⟨by simp, rfl, fun _ => ⟨.fitTwice, rfl, rfl⟩⟩
    · have htr : train fc df engine =
          ({ fc1 with model := some m, is_trained := false },
            some (.trainingFailure .regressorAfterFit)) := by
        unfold train
        rw [hpre]
        dsimp only
        rw [if_neg hmiss, hmodel']
        dsimp only
        rw [hadd]
      rw [htr]
      exact ⟨by simp, rfl, fun _ => ⟨.regressorAfterFit, rfl, rfl⟩⟩

/-- Witness for C6 at a concrete trained forecaster and a well-formed
retraining frame (which preprocesses cleanly). -/
theorem trained_rejects_retrain_witness :
    (train fcTrained dfEx .ok).2 ≠ none ∧
    (train fcTrained dfEx .ok).1.is_trained = false ∧
    (isOkE (preprocess_data fcTrained dfEx) = true →
      ∃ c, (train fcTrained dfEx .ok).2 = some (.trainingFailure c) ∧
        c.isStateKind = true) :=
  trained_rejects_retrain fcTrained prophetTrained rfl rfl rfl dfEx .ok

/-- C4: the fitted-scaler guard of `preprocess_data` is false in every state
(a `ColumnTransformer` never exposes `mean_`), so every successful call —
including every call after training — takes the `fit_transform` branch: the
parameters stored afterwards are always a fresh fit of the present frame's
covariates, never the previously stored parameters. -/
theorem preprocess_refits_scaler_every_call (fc : ForecasterState) (df : RawDF)
    (st : ForecasterState) (out : List ProcessedRow)
    (h : preprocess_data fc df = .ok (st, out)) :
    hasattrMean fc.preprocessor = false ∧
    ∃ enc, fc.encoder_estados = some enc ∧
      st.preprocessor =
        some { params := some (fitScaler (covariateMatrix enc df.rows)) } := by
  refine ⟨rfl, ?_⟩
  unfold preprocess_data preprocess_scaling at h
  split at h
  · exact Except.noConfusion h
  · split at h
    · exact Except.noConfusion h
    · split at h
      · exact Except.noConfusion h
      · split at h
        · exact Except.noConfusion h
        · rename_i enc henc
          split at h
          · exact Except.noConfusion h
          · rename_i coded hcoded
            split at h
            · rename_i hattr
              rw [hasattrMean] at hattr
              cases hattr
            · split at h
              · exact Except.noConfusion h
              · split at h
                · exact Except.noConfusion h
                · have h' := Except.ok.inj h
                  rw [Prod.mk.injEq] at h'
                  obtain ⟨h1, _⟩ := h'
                  subst h1
                  refine ⟨enc, henc, ?_⟩
                  have hc : coded = (groupAgg df.rows).map
                      fun g => (g, enc.classes.indexOf g.Estado) := by
                    unfold encodeEstados at hcoded
                    split at hcoded
                    · exact (Except.ok.inj hcoded).symm
                    · exact Except.noConfusion hcoded
                  subst hc
                  simp [covariateMatrix, List.map_map]
                  rfl

/-- Witness for C4 at a concrete call: preprocessing `dfEx` on the trained
`fcTrained` (whose stored parameters are `paramsEx`) succeeds and stores the
fresh fit of `dfEx`'s covariates instead. -/
theorem preprocess_refits_scaler_every_call_witness :
    hasattrMean fcTrained.preprocessor = false ∧
    ∃ enc, fcTrained.encoder_estados = some enc ∧
      stAfterRefit.preprocessor =
        some { params := some (fitScaler (covariateMatrix enc dfEx.rows)) } :=
  preprocess_refits_scaler_every_call fcTrained dfEx stAfterRefit outAfterRefit
    (by with_unfolding_all rfl)

/-- Rounding to the nearest integer (ties to even) moves a value by at most
one half. -/
theorem abs_roundHalfEven_sub (x : ℚ) : |(roundHalfEven x : ℚ) - x| ≤ 1 / 2 := by
  have h0 : (0 : ℚ) ≤ Int.fract x := Int.fract_nonneg x
  have h1 : Int.fract x < 1 := Int.fract_lt_one x
  have key : (⌊x⌋ : ℚ) + Int.fract x = x := Int.floor_add_fract x
  unfold roundHalfEven
  split
  · rename_i hlt
    rw [abs_le]
    constructor <;> linarith
  · split
    · rename_i hle hgt
      rw [abs_le]
      push_cast
      constructor <;> linarith
    · rename_i hle hngt
      have heq : Int.fract x = 1 / 2 := by linarith
      split
      · rw [abs_le]
        constructor <;> linarith
      · rw [abs_le]
        push_cast
        constructor <;> linarith

/-- Rounding to four decimal places moves a value by at most half of `1e-4`. -/
theorem abs_round4_sub (q : ℚ) : |round4 q - q| ≤ 1 / 20000 := by
  have h := abs_roundHalfEven_sub (q * 10000)
  rw [abs_le] at h ⊢
  unfold round4
  obtain ⟨h1, h2⟩ := h
  constructor <;> linarith

/-- Rounding a pair of complementary summands separately perturbs their sum
by at most `1e-4`. -/
theorem round4_pair_conservation (T f : ℚ) :
    |round4 f + round4 (T - f) - T| ≤ 1 / 10000 := by
  have h1 := abs_round4_sub f
  have h2 := abs_round4_sub (T - f)
  have he : round4 f + round4 (T - f) - T =
      (round4 f - f) + (round4 (T - f) - (T - f)) := by ring
  rw [he]
  calc |(round4 f - f) + (round4 (T - f) - (T - f))|
      ≤ |round4 f - f| + |round4 (T - f) - (T - f)| := abs_add _ _
    _ ≤ 1 / 20000 + 1 / 20000 := add_le_add h1 h2
    _ = 1 / 10000 := by norm_num

/-- The reconstruction step emits one output row per forecast row. -/
theorem reconstructRows_length (A0 F0 : ℚ) :
    ∀ (l : List (FutureRow × Pred)) (Fprev : ℚ),
      (reconstructRows A0 Fprev F0 l).length = l.length := by
  intro l
  induction l with
  | nil => intro Fprev; rfl
  | cons hd tl ih =>
    intro Fprev
    unfold reconstructRows
    rw [List.length_cons, List.length_cons, ih]

/-- The date of the `i`-th reconstructed row is the timestamp of the `i`-th
future row. -/
theorem reconstructRows_get_data (A0 F0 : ℚ) :
    ∀ (l : List (FutureRow × Pred)) (Fprev : ℚ) (i : Nat)
      (hi : i < (reconstructRows A0 Fprev F0 l).length) (hj : i < l.length),
      ((reconstructRows A0 Fprev F0 l).get ⟨i, hi⟩).data = (l.get ⟨i, hj⟩).1.ds := by
  intro l
  induction l with
  | nil => intro Fprev i hi hj; cases hj
  | cons hd tl ih =>
    intro Fprev i hi hj
    cases i with
    | zero => rfl
    | succ j =>
      have hi' : j < (reconstructRows A0 (Fprev * (1 - hd.2.yhat)) F0 tl).length := by
        rw [reconstructRows_length]
        exact Nat.lt_of_succ_lt_succ hj
      exact ih (Fprev * (1 - hd.2.yhat)) j hi' (Nat.lt_of_succ_lt_succ hj)

/-- Every reconstructed row carries a rounded forest value `round4 f` and the
complementary farmland value `round4 (A0 + (F0 - f))`, so each row's area sum
is within `1e-4` of the initial total `A0 + F0`. -/
theorem reconstructRows_conservation (A0 F0 : ℚ) :
    ∀ (l : List (FutureRow × Pred)) (Fprev : ℚ) (row : ForecastRow),
      row ∈ reconstructRows A0 Fprev F0 l →
      |row.area_floresta_projetada + row.area_fazenda_projetada - (A0 + F0)| ≤
        1 / 10000 := by
  intro l
  induction l with
  | nil => intro Fprev row h; cases h
  | cons hd tl ih =>
    intro Fprev row h
    rw [reconstructRows] at h
    rcases List.mem_cons.mp h with hrow | hrow
    · subst hrow
      dsimp only
      have he : A0 + (F0 - Fprev * (1 - hd.2.yhat)) =
          (A0 + F0) - Fprev * (1 - hd.2.yhat) := by ring
      rw [he]
      exact round4_pair_conservation (A0 + F0) _
    · exact ih _ row hrow

/-- The future timestamps: `horizon` of them. -/
theorem futureYears_length (ly : Int) (n : Nat) :
    (futureYears ly n).length = n := by
  unfold futureYears
  rw [List.length_take, List.length_map, List.length_range]
  omega

/-- The `i`-th future timestamp is `last_year + 1 + i`: consecutive annual
dates starting the year after the last observed one. -/
theorem futureYears_getElem (ly : Int) (n i : Nat)
    (hi : i < (futureYears ly n).length) :
    (futureYears ly n)[i] = ly + 1 + (i : Int) := by
  unfold futureYears at *
  rw [List.getElem_take, List.getElem_map, List.getElem_range]

/-- A complete mapping with in-range areas and proportion, a known biome and
a state seen by the attached encoder passes `_validate_inputs`. -/
theorem validate_inputs_ok_of (fc : ForecasterState) (enc : EncoderState)
    (inputs : Inputs) (est bio : String) (faz flor prop yv : ℚ) (code ly : Int)
    (henc : fc.encoder_estados = some enc)
    (hIfaz : inputs.area_fazenda_ha = some faz)
    (hIflor : inputs.area_floresta_ha = some flor)
    (hIprop : inputs.prop_floresta = some prop)
    (hIcode : inputs.estado_code = some code)
    (hIest : inputs.Estado = some est)
    (hIbio : inputs.bioma = some bio)
    (hIy : inputs.y = some yv)
    (hIly : inputs.last_year = some ly)
    (hfaz : 0 ≤ faz) (hflor : 0 ≤ flor) (hprop0 : 0 ≤ prop) (hprop1 : prop ≤ 1)
    (hbio : bio ∈ valid_biomas) (hest : est ∈ enc.classes) :
    validate_inputs fc inputs = .ok () := by
  unfold validate_inputs missingKeys
  simp only [hIfaz, hIflor, hIprop, hIcode, hIest, hIbio, hIy, hIly, henc,
    Option.isNone_some, Option.getD_some, Bool.false_eq_true, if_false,
    List.nil_append, List.isEmpty_nil, not_true, not_lt.mpr hfaz,
    not_lt.mpr hflor, not_lt.mpr hprop0, not_lt.mpr hprop1, hbio, hest,
    not_true_eq_false, ite_false, not_false_eq_true, ite_true]

/-- The `estado_code` derivation leaves a mapping that already carries the
key untouched. -/
theorem deriveEstadoCode_of_some (fc : ForecasterState) (inputs : Inputs)
    (code : Int) (hIcode : inputs.estado_code = some code) :
    deriveEstadoCode fc inputs = .ok inputs := by
  unfold deriveEstadoCode
  rw [hIcode]

/-- The `prop_floresta` derivation leaves a mapping that already carries the
key untouched. -/
theorem derivePropFloresta_of_some (inputs : Inputs) (prop : ℚ)
    (hIprop : inputs.prop_floresta = some prop) :
    derivePropFloresta inputs = inputs := by
  unfold derivePropFloresta
  rw [hIprop]

/-- C2: on a trained forecaster (fitted scaler, fitted model, encoder that
knows the requested state), a valid complete mapping and a positive horizon,
`predict` succeeds with exactly `horizon` rows whose dates are the
consecutive years `last_year + 1, last_year + 2, ...` — one year apart,
starting immediately after the last observed year. -/
theorem predict_trained_horizon_rows (fc : ForecasterState) (enc : EncoderState)
    (p : ScalerParams) (m : ProphetState) (inputs : Inputs) (est bio : String)
    (faz flor prop yv : ℚ) (code ly : Int) (horizon : Int)
    (engine : ProcessedFutureRow → Pred)
    (henc : fc.encoder_estados = some enc)
    (hprep : fc.preprocessor = some { params := some p })
    (hm : fc.model = some m) (hfit : m.fitted = true)
    (hIfaz : inputs.area_fazenda_ha = some faz)
    (hIflor : inputs.area_floresta_ha = some flor)
    (hIprop : inputs.prop_floresta = some prop)
    (hIcode : inputs.estado_code = some code)
    (hIest : inputs.Estado = some est)
    (hIbio : inputs.bioma = some bio)
    (hIy : inputs.y = some yv)
    (hIly : inputs.last_year = some ly)
    (hfaz : 0 ≤ faz) (hflor : 0 ≤ flor) (hprop0 : 0 ≤ prop) (hprop1 : prop ≤ 1)
    (hbio : bio ∈ valid_biomas) (hest : est ∈ enc.classes) (hh : 0 < horizon) :
    ∃ rows, predict fc inputs horizon engine = .ok rows ∧
      rows.length = horizon.toNat ∧
      ∀ i (hi : i < rows.length), (rows.get ⟨i, hi⟩).data = ly + 1 + (i : Int) := by
  have hval := validate_inputs_ok_of fc enc inputs est bio faz flor prop yv code ly
    henc hIfaz hIflor hIprop hIcode hIest hIbio hIy hIly
    hfaz hflor hprop0 hprop1 hbio hest
  have hder := deriveEstadoCode_of_some fc inputs code hIcode
  have hderp := derivePropFloresta_of_some inputs prop hIprop
  have ht : enc.transform1 est = .ok (enc.classes.indexOf est) := by
    unfold EncoderState.transform1
    rw [if_pos hest]
  have hfut : create_future_dataframe fc (derivePropFloresta inputs) horizon.toNat =
      .ok ((futureYears ly horizon.toNat).map fun d =>
        { ds := d, y := yv, area_fazenda_ha := faz, area_floresta_ha := flor,
          prop_floresta := prop, estado_code := code, Estado := est,
          bioma := bio }) := by
    rw [hderp]
    unfold create_future_dataframe
    rw [henc]
    simp only [hIest, hIfaz, hIflor, hIprop, hIcode, hIbio, hIy, hIly,
      Option.getD_some]
    rw [ht]
  have hproc : ∀ (F : List FutureRow), transformFuture fc F = .ok (F.map fun r =>
      { ds := r.ds, y := r.y
        features := transformWith p
          { area_fazenda_ha := r.area_fazenda_ha
            area_floresta_ha := r.area_floresta_ha
            prop_floresta := r.prop_floresta
            estado_code := (r.estado_code : ℚ) } }) := by
    intro F
    unfold transformFuture
    rw [hprep]
  have hpredm : ∀ (P : List ProcessedFutureRow),
      prophetPredict fc.model P engine = .ok (P.map engine) := by
    intro P
    unfold prophetPredict
    rw [hm]
    dsimp only
    rw [if_neg (not_not_intro hfit)]
  refine ⟨?rows, ?_, ?_, ?_⟩
  case rows =>
    exact reconstructRows faz flor flor
      (((futureYears ly horizon.toNat).map fun d =>
          ({ ds := d, y := yv, area_fazenda_ha := faz, area_floresta_ha := flor,
             prop_floresta := prop, estado_code := code, Estado := est,
             bioma := bio } : FutureRow)).zip
        ((((futureYears ly horizon.toNat).map fun d =>
          ({ ds := d, y := yv, area_fazenda_ha := faz, area_floresta_ha := flor,
             prop_floresta := prop, estado_code := code, Estado := est,
             bioma := bio } : FutureRow)).map fun r =>
            ({ ds := r.ds, y := r.y
               features := transformWith p
                 { area_fazenda_ha := r.area_fazenda_ha
                   area_floresta_ha := r.area_floresta_ha
                   prop_floresta := r.prop_floresta
                   estado_code := (r.estado_code : ℚ) } } : ProcessedFutureRow)).map
          engine))
  · unfold predict
    rw [hIly]
    rw [if_neg (by simp)]
    unfold predictCore
    rw [hval]
    dsimp only
    rw [if_neg (not_le.mpr hh)]
    rw [hder]
    dsimp only
    rw [hfut]
    dsimp only
    rw [hproc]
    dsimp only
    rw [hpredm]
    dsimp only
    rw [hderp]
    simp only [hIfaz, hIflor, Option.getD_some]
  · simp [reconstructRows_length, List.length_zip, futureYears_length]
  · intro i hi
    have hj := hi
    rw [reconstructRows_length] at hj
    rw [reconstructRows_get_data _ _ _ _ i hi hj]
    rw [List.get_eq_getElem, List.getElem_zip]
    dsimp only
    rw [List.getElem_map]
    dsimp only
    have hb : i < (futureYears ly horizon.toNat).length := by
      simp only [List.length_zip, List.length_map] at hj
      omega
    exact futureYears_getElem ly horizon.toNat i hb

/-- Witness for C2: the trained example forecaster, the complete example
mapping, horizon 5: five rows dated 2024-2028. -/
theorem predict_trained_horizon_rows_witness :
    ∃ rows, predict fcTrained inputsFull 5 engineEx = .ok rows ∧
      rows.length = (5 : Int).toNat ∧
      ∀ i (hi : i < rows.length),
        (rows.get ⟨i, hi⟩).data = 2023 + 1 + (i : Int) :=
  predict_trained_horizon_rows fcTrained encEx paramsEx prophetTrained inputsFull
    "Acre" "Amazônia" 100000 900000 (9 / 10) (1 / 100) 0 2023 5 engineEx
    rfl rfl rfl rfl rfl rfl rfl rfl rfl rfl rfl rfl
    (by norm_num) (by norm_num) (by norm_num) (by norm_num)
    (by decide) (by decide) (by norm_num)

/-- Areas are untouched by the `estado_code` derivation. -/
theorem deriveEstadoCode_ok_areas (fc : ForecasterState) (inputs inputs1 : Inputs)
    (h : deriveEstadoCode fc inputs = .ok inputs1) :
    inputs1.area_fazenda_ha = inputs.area_fazenda_ha ∧
    inputs1.area_floresta_ha = inputs.area_floresta_ha := by
  unfold deriveEstadoCode at h
  split at h
  · cases h
    exact ⟨rfl, rfl⟩
  · split at h
    · exact Except.noConfusion h
    · split at h
      · cases h
        exact ⟨rfl, rfl⟩
      · exact Except.noConfusion h

/-- Areas are untouched by the `prop_floresta` derivation. -/
theorem derivePropFloresta_areas (inputs : Inputs) :
    (derivePropFloresta inputs).area_fazenda_ha = inputs.area_fazenda_ha ∧
    (derivePropFloresta inputs).area_floresta_ha = inputs.area_floresta_ha := by
  unfold derivePropFloresta
  split
  · exact ⟨rfl, rfl⟩
  · exact ⟨rfl, rfl⟩

/-- Every successful `predict` output has the reconstruction shape: it is the
area-reconstruction fold seeded with the farmland and forest areas of the
supplied mapping. -/
theorem predict_ok_shape (fc : ForecasterState) (inputs : Inputs) (horizon : Int)
    (engine : ProcessedFutureRow → Pred) (rows : List ForecastRow)
    (h : predict fc inputs horizon engine = .ok rows) :
    ∃ pairs, rows = reconstructRows (inputs.area_fazenda_ha.getD 0)
      (inputs.area_floresta_ha.getD 0) (inputs.area_floresta_ha.getD 0) pairs := by
  unfold predict at h
  split at h
  · exact Except.noConfusion h
  · split at h
    · rename_i r heq
      cases h
      unfold predictCore at heq
      split at heq
      · exact Except.noConfusion heq
      · split at heq
        · exact Except.noConfusion heq
        · split at heq
          · exact Except.noConfusion heq
          · rename_i inputs1 hder
            split at heq
            · exact Except.noConfusion heq
            · rename_i future hfutOk
              split at heq
              · exact Except.noConfusion heq
              · split at heq
                · exact Except.noConfusion heq
                · rename_i preds hpredsOk
                  have hr := Except.ok.inj heq
                  refine ⟨future.zip preds, ?_⟩
                  rw [← hr]
                  obtain ⟨ha, hf⟩ := deriveEstadoCode_ok_areas fc inputs inputs1 hder
                  rw [(derivePropFloresta_areas inputs1).1,
                    (derivePropFloresta_areas inputs1).2, ha, hf]
    · exact Except.noConfusion h

/-- C3: for every row of a successful `predict` output, the projected forest
and farmland areas sum to the initial total `farmland + forest` supplied in
the mapping, up to the `1e-4` perturbation that rounding each of the two
columns to four decimal places can introduce (the forest column being the
rounded cumulative `(1 - rate)` product of the initial forest area, the
farmland column its rounded complement). -/
theorem predict_rows_conserve_area (fc : ForecasterState) (inputs : Inputs)
    (horizon : Int) (engine : ProcessedFutureRow → Pred) (rows : List ForecastRow)
    (A0 F0 : ℚ)
    (h : predict fc inputs horizon engine = .ok rows)
    (hA : inputs.area_fazenda_ha = some A0)
    (hF : inputs.area_floresta_ha = some F0) :
    ∀ row ∈ rows,
      |row.area_floresta_projetada + row.area_fazenda_projetada - (A0 + F0)| ≤
        1 / 10000 := by
  obtain ⟨pairs, hr⟩ := predict_ok_shape fc inputs horizon engine rows h
  rw [hA, hF] at hr
  simp only [Option.getD_some] at hr
  subst hr
  intro row hrow
  exact reconstructRows_conservation A0 F0 pairs F0 row hrow

/-- Witness for C3 at the concrete two-year forecast of the trained example
forecaster, instantiated at its first returned row: 450000 + 550000 is within
tolerance of the initial 1,000,000 ha. -/
theorem predict_rows_conserve_area_witness :
    |(450000 : ℚ) + 550000 - (100000 + 900000)| ≤ 1 / 10000 :=
  predict_rows_conserve_area fcTrained inputsFull 2 engineEx rowsEx 100000 900000
    (by with_unfolding_all rfl) rfl rfl
    { data := 2024, Estado := "Acre", bioma := "Amazônia"
      conversao_ha_prevista := 1 / 2, limite_inferior := 0, limite_superior := 1
      area_floresta_projetada := 450000, area_fazenda_projetada := 550000 }
    (by unfold rowsEx; exact List.mem_cons_self _ _)

end EcoGuardian
